import Mathlib

/-!
Shallow embedding of the internal wallet service (TypeScript/Prisma/Postgres)
for verification of its specification.

The embedding covers:
* the persistent data model (assets, wallets, transactions, ledger entries);
* `WalletService.executeTransaction` (src/services/wallet.service.ts),
  including the DB-level idempotency probe, sorted lock acquisition,
  balance checks, wallet updates, transaction insert and the double-entry
  ledger batch insert, with the surrounding `prisma.$transaction` rollback
  and the `withRetry` contention-retry loop;
* `WalletService.getTransactionHistory` (page window then asset filter);
* the idempotency-cache replay branch of `WalletController.processTransaction`.

Modelling conventions:
* Monetary values are DECIMAL(·,4) columns, i.e. exact fixed-point numbers;
  they are modelled as exact integers (`Int`) in a fixed unit, so that all
  balance arithmetic is exact.  The non-finite JS values NaN/±Infinity,
  which matter only for input validation, are modelled by the `JsNum`
  wrapper.
* DB-generated values (the new transaction UUID, `created_at` timestamps)
  are explicit parameters (`newTxId`, `now`).
* A Prisma interactive transaction is a state-threading function
  `Store → Except Err Result × Store`; `runTransaction` applies the
  rollback semantics: on a thrown error the store reverts to its input.
* The source stringifies the returned balance (`userBalance.toString()`);
  the embedding keeps it as the underlying number.
-/

namespace WalletSpec

/-- `TransactionType` enum of the service (src/types/enums). -/
inductive TransactionType where
  | TOP_UP
  | BONUS
  | SPEND
deriving DecidableEq, BEq, Repr

/-- Ledger `entry_type` enum: DEBIT from the source wallet, CREDIT to the
destination wallet. -/
inductive EntryType where
  | DEBIT
  | CREDIT
deriving DecidableEq, BEq, Repr

/-- An asset row: unique `symbol` (e.g. GOLD). -/
structure Asset where
  id : String
  symbol : String
deriving DecidableEq, Repr

/-- A wallet row: one per (user, asset), with the cached balance column. -/
structure Wallet where
  id : String
  user_id : String
  asset_id : String
  balance : Int
deriving DecidableEq, Repr

/-- A transaction row.  `created_at` is the DB-assigned timestamp (modelled
as a natural number so that ORDER BY created_at DESC is well defined). -/
structure Transaction where
  id : String
  idempotency_key : String
  from_wallet_id : String
  to_wallet_id : String
  amount : Int
  ttype : TransactionType
  status : String
  created_at : Nat
deriving DecidableEq, Repr

/-- A double-entry ledger row referencing its transaction and wallet. -/
structure LedgerEntry where
  transaction_id : String
  wallet_id : String
  entry_type : EntryType
  amount : Int
  balance_after : Int
deriving DecidableEq, Repr

/-- The persistent store: the four tables the transfer engine touches. -/
structure Store where
  assets : List Asset
  wallets : List Wallet
  transactions : List Transaction
  ledgerEntries : List LedgerEntry
deriving DecidableEq, Repr

/-- Decidable equality of `Except` results, for concrete evaluation of the
embedded operations. -/
instance {ε α : Type} [DecidableEq ε] [DecidableEq α] : DecidableEq (Except ε α) := fun a b =>
  match a, b with
  | .ok x, .ok y =>
    if h : x = y then .isTrue (by rw [h]) else .isFalse (by intro hc; cases hc; exact h rfl)
  | .error x, .error y =>
    if h : x = y then .isTrue (by rw [h]) else .isFalse (by intro hc; cases hc; exact h rfl)
  | .ok _, .error _ => .isFalse (by intro hc; cases hc)
  | .error _, .ok _ => .isFalse (by intro hc; cases hc)

/-- Errors thrown by the service layer.  `validationError` and
`notFoundError` mirror the `AppError` subclasses; `genericError` mirrors a
plain `new Error(msg)` (used for corruption and insufficient funds);
`pgError` carries a Postgres error code such as 40P01. -/
inductive WError where
  | validationError (msg : String)
  | notFoundError (msg : String)
  | genericError (msg : String)
  | pgError (code : String)
deriving DecidableEq, Repr

/-- The success payload of `executeTransaction`:
`{ status: 'SUCCESS', txId, balance }` (the source stringifies `balance`). -/
structure TxResult where
  status : String
  txId : String
  balance : Int
deriving DecidableEq, Repr

/-- A JS `number` as received by the validation code: either a finite value
(idealised as an exact number) or one of the non-finite values. -/
inductive JsNum where
  | num (q : Int)
  | posInf
  | negInf
  | nan
deriving DecidableEq, Repr

/-- `TRANSACTION_LIMITS.MAX_AMOUNT` from src/constants. -/
def MAX_AMOUNT : Int := 1000000000

/-- JS `amount <= 0` (false on NaN and +Infinity, true on -Infinity). -/
def JsNum.leZero : JsNum → Bool
  | .num q => decide (q ≤ 0)
  | .posInf => false
  | .negInf => true
  | .nan => false

/-- JS `Number.isFinite(amount)`. -/
def JsNum.isFinite : JsNum → Bool
  | .num _ => true
  | .posInf => false
  | .negInf => false
  | .nan => false

/-- JS `amount > TRANSACTION_LIMITS.MAX_AMOUNT`. -/
def JsNum.gtMax : JsNum → Bool
  | .num q => decide (MAX_AMOUNT < q)
  | .posInf => true
  | .negInf => false
  | .nan => false

/-- The underlying numeric value of a validated (finite) amount. -/
def JsNum.toRat : JsNum → Int
  | .num q => q
  | .posInf => 0
  | .negInf => 0
  | .nan => 0

/-- `prisma.wallet.update({ where: { id }, data: { balance } })`:
set the balance of the wallet(s) with the given id. -/
def Store.updateWalletBalance (db : Store) (walletId : String) (newBalance : Int) : Store :=
  { db with wallets := db.wallets.map fun w =>
      if w.id == walletId then { w with balance := newBalance } else w }

/-- `[fromUserId, toUserId].sort()` restricted to the two-element case:
the default JS comparator orders strings, so the smaller id comes first
(deadlock-prevention lock order, wallet.service.ts line 117). -/
def lockPair (a b : String) : String × String :=
  if a ≤ b then (a, b) else (b, a)

/-- `RETRYABLE_PG_CODES = new Set(['40P01', '55P03'])`. -/
def RETRYABLE_PG_CODES : List String := ["40P01", "55P03"]

/-- `const isRetryable = pgCode && RETRYABLE_PG_CODES.has(pgCode)`:
only errors carrying a Postgres code can be retryable. -/
def isRetryable : WError → Bool
  | .pgError c => RETRYABLE_PG_CODES.contains c
  | _ => false

/-- The observable outcome of `withRetry`: the final result, how many times
`fn` was invoked, and the backoff delays (in ms) slept between attempts. -/
structure RetryTrace (α : Type) where
  result : Except WError α
  calls : Nat
  delays : List Nat
deriving Repr

/-- The body of `withRetry`'s `for` loop.  `attempt` is the current attempt
number (starting at 1); `fuel` is `maxAttempts - attempt + 1`, the number of
attempts still allowed, so `attempt < maxAttempts` iff `fuel ≥ 2`. -/
def withRetryGo {α : Type} (fn : Nat → Except WError α) : Nat → Nat → RetryTrace α
  | _, 0 => ⟨.error (.genericError "Max retry attempts exceeded"), 0, []⟩
  | attempt, fuel + 1 =>
    match fn attempt with
    | .ok v => ⟨.ok v, 1, []⟩
    | .error e =>
      if isRetryable e && fuel != 0 then
        let rest := withRetryGo fn (attempt + 1) fuel
        ⟨rest.result, rest.calls + 1, 2 ^ attempt * 100 :: rest.delays⟩
      else
        ⟨.error e, 1, []⟩

/-- `withRetry(fn, maxAttempts = 3)` of wallet.service.ts: run `fn`, and on
an error whose Postgres code is 40P01 or 55P03, sleep `2^attempt * 100` ms
and retry, up to `maxAttempts` attempts in total; any other error is
rethrown immediately.  `fn` receives the attempt number so that a distinct
outcome per attempt can be modelled. -/
def withRetry {α : Type} (fn : Nat → Except WError α) (maxAttempts : Nat := 3) : RetryTrace α :=
  withRetryGo fn 1 maxAttempts

/-- The body of the `prisma.$transaction(async (tx) => ...)` callback in
`WalletService.executeTransaction`, with the store threaded explicitly.
An error is returned together with the store as mutated so far (rollback is
applied by `runTransaction`).  `newTxId` and `now` stand for the
DB-generated transaction id and `created_at`.  `assetId` is the id of the
already-resolved asset. -/
def txBody (db : Store) (newTxId : String) (now : Nat)
    (idempotencyKey fromUserId toUserId assetId : String)
    (amount : Int) (ttype : TransactionType) :
    Except WError TxResult × Store :=
  -- SET LOCAL lock_timeout = '5s' : session configuration, no data effect.
  -- DB-level idempotency fallback:
  match db.transactions.find? (fun t => t.idempotency_key == idempotencyKey) with
  | some existing =>
    -- source returns { status: 'SUCCESS', txId: existing.id, balance: '0' }
    (.ok ⟨"SUCCESS", existing.id, 0⟩, db)
  | none =>
    -- SELECT ... FOR UPDATE in sorted order; the result set is discarded.
    let _locked := lockPair fromUserId toUserId
    match db.wallets.find? (fun w => w.user_id == fromUserId && w.asset_id == assetId) with
    | none => (.error (.notFoundError ("Sender wallet not found for " ++ fromUserId)), db)
    | some fromWallet =>
      match db.wallets.find? (fun w => w.user_id == toUserId && w.asset_id == assetId) with
      | none => (.error (.notFoundError ("Receiver wallet not found for " ++ toUserId)), db)
      | some toWallet =>
        let currentBalance := fromWallet.balance
        if currentBalance < 0 then
          (.error (.genericError ("Wallet balance corrupted for " ++ fromUserId)), db)
        else if currentBalance < amount then
          (.error (.genericError "Insufficient funds."), db)
        else
          let newFromBalance := currentBalance - amount
          let newToBalance := toWallet.balance + amount
          let db1 := db.updateWalletBalance fromWallet.id newFromBalance
          let db2 := db1.updateWalletBalance toWallet.id newToBalance
          let savedTx : Transaction :=
            ⟨newTxId, idempotencyKey, fromWallet.id, toWallet.id, amount, ttype, "SUCCESS", now⟩
          let db3 := { db2 with transactions := db2.transactions ++ [savedTx] }
          let debit : LedgerEntry := ⟨newTxId, fromWallet.id, .DEBIT, amount, newFromBalance⟩
          let credit : LedgerEntry := ⟨newTxId, toWallet.id, .CREDIT, amount, newToBalance⟩
          let db4 := { db3 with ledgerEntries := db3.ledgerEntries ++ [debit, credit] }
          let userBalance :=
            if ttype == .TOP_UP || ttype == .BONUS then newToBalance else newFromBalance
          (.ok ⟨"SUCCESS", newTxId, userBalance⟩, db4)

/-- `prisma.$transaction` semantics: commit the threaded store on success,
roll back (discard all writes) on error. -/
def runTransaction (db : Store) (body : Store → Except WError TxResult × Store) :
    Except WError (TxResult × Store) :=
  match body db with
  | (.ok r, db') => .ok (r, db')
  | (.error e, _) => .error e

/-- `WalletService.executeTransaction`: validation, asset resolution, then
the retried DB transaction.  On error the store is unchanged (rollback), so
only the committed store is returned. -/
def executeTransaction (db : Store) (newTxId : String) (now : Nat)
    (idempotencyKey fromUserId toUserId assetSymbol : String)
    (amount : JsNum) (ttype : TransactionType) :
    Except WError (TxResult × Store) :=
  if amount.leZero || !amount.isFinite then
    .error (.validationError "Amount must be a positive finite number")
  else if amount.gtMax then
    .error (.validationError "Amount exceeds maximum")
  else
    match db.assets.find? (fun a => a.symbol == assetSymbol) with
    | none => .error (.notFoundError ("Asset " ++ assetSymbol ++ " not found"))
    | some asset =>
      (withRetry (fun _ =>
        runTransaction db (fun s =>
          txBody s newTxId now idempotencyKey fromUserId toUserId asset.id
            amount.toRat ttype)) 3).result

/-! ### Read projection `WalletService.getTransactionHistory` -/

/-- Join: the wallet row of a wallet id. -/
def Store.walletById (db : Store) (walletId : String) : Option Wallet :=
  db.wallets.find? (fun w => w.id == walletId)

/-- Join: the asset symbol of a wallet id (Prisma's
`include: { from_wallet: { include: { asset: true } } }`).  The source data
always has the wallet and asset present; a dangling reference yields
`none`. -/
def Store.walletAssetSymbol (db : Store) (walletId : String) : Option String :=
  match db.walletById walletId with
  | none => none
  | some w =>
    match db.assets.find? (fun a => a.id == w.asset_id) with
    | none => none
    | some a => some a.symbol

/-- The `where` predicate of `getTransactionHistory`: the user owns either
side's wallet, plus the optional type and date-range filters. -/
def historyWhere (db : Store) (userId : String) (ty : Option TransactionType)
    (startDate endDate : Option Nat) (t : Transaction) : Bool :=
  ((match db.walletById t.from_wallet_id with
    | some w => w.user_id == userId
    | none => false) ||
   (match db.walletById t.to_wallet_id with
    | some w => w.user_id == userId
    | none => false)) &&
  (match ty with
   | some ty0 => t.ttype == ty0
   | none => true) &&
  (match startDate with
   | some s => decide (s ≤ t.created_at)
   | none => true) &&
  (match endDate with
   | some e => decide (t.created_at ≤ e)
   | none => true)

/-- Insert a transaction into a list kept in `created_at DESC` order. -/
def insertDesc (t : Transaction) : List Transaction → List Transaction
  | [] => [t]
  | h :: rest =>
    if h.created_at < t.created_at then t :: h :: rest else h :: insertDesc t rest

/-- `orderBy: { created_at: 'desc' }`. -/
def sortByCreatedDesc (l : List Transaction) : List Transaction :=
  l.foldr insertDesc []

/-- Does the transaction touch the given asset symbol on either side?
(the post-window filter of `getTransactionHistory`). -/
def txTouchesAsset (db : Store) (sym : String) (t : Transaction) : Bool :=
  (match db.walletAssetSymbol t.from_wallet_id with
   | some s => s == sym
   | none => false) ||
  (match db.walletAssetSymbol t.to_wallet_id with
   | some s => s == sym
   | none => false)

/-- The page returned by `getTransactionHistory`: the post-filter
transactions plus the pagination block. -/
structure HistoryPage where
  transactions : List Transaction
  total : Nat
  limit : Int
  offset : Int
  returned : Nat
  hasMore : Bool
deriving DecidableEq, Repr

/-- `WalletService.getTransactionHistory`: validate limit/offset, count and
fetch the `where`-matching rows ordered by `created_at DESC`, slice the
page window (`skip offset, take limit`), and only then apply the
`assetSymbol` filter; `returned` counts the post-filter rows and
`hasMore = offset + returned < total`.  (The user-existence probe is
modelled as given: the claims quantify over users present in the store.) -/
def getTransactionHistory (db : Store) (userId : String)
    (ty : Option TransactionType) (assetSymbol : Option String)
    (startDate endDate : Option Nat) (limit offset : Int) :
    Except WError HistoryPage :=
  if limit < 1 || limit > 500 then
    .error (.validationError "Limit must be between 1 and 500")
  else if offset < 0 then
    .error (.validationError "Offset must be non-negative")
  else
    let rows := db.transactions.filter (historyWhere db userId ty startDate endDate)
    let total := rows.length
    let page := ((sortByCreatedDesc rows).drop offset.toNat).take limit.toNat
    let filtered :=
      match assetSymbol with
      | some sym => page.filter (txTouchesAsset db sym)
      | none => page
    .ok ⟨filtered, total, limit, offset, filtered.length,
         decide (offset + filtered.length < total)⟩

/-! ### Idempotency-cache replay branch of the controller -/

/-- Status of a value cached in the fast idempotency cache
(`CachedResponse` in src/utils/idempotency.ts). -/
inductive CacheStatus where
  | PROCESSING
  | SUCCESS
  | FAILED
deriving DecidableEq, BEq, Repr

/-- A cached idempotency value: `{status, txId?, balance?, error?}`. -/
structure Cached where
  status : CacheStatus
  txId : Option String
  balance : Option Int
  errMsg : Option String
deriving DecidableEq, Repr

/-- What the cached-replay branch of `WalletController.processTransaction`
does with the request: answer with a status code and body, or fall through
to fresh processing. -/
inductive ReplayDecision where
  | conflict (statusCode : Nat) (errorMsg : String)
  | replay (statusCode : Nat) (body : Cached) (cachedFlag : Bool)
  | proceed
deriving DecidableEq, Repr

/-- The HTTP status code of a replay decision (`none` when the request
falls through to fresh processing). -/
def ReplayDecision.code : ReplayDecision → Option Nat
  | .conflict n _ => some n
  | .replay n _ _ => some n
  | .proceed => none

/-- Lines 20-29 of `WalletController.processTransaction`: given the value
the idempotency cache returned for the key (if any), a cached PROCESSING
value answers 409 CONFLICT with an error envelope; any other cached value —
SUCCESS or FAILED alike — is replayed verbatim as 200 OK with `_cached:
true` (the `cachedFlag` field); a cache miss proceeds to fresh
processing. -/
def handleIdempotencyCache : Option Cached → ReplayDecision
  | none => .proceed
  | some cached =>
    if cached.status == .PROCESSING then
      .conflict 409 "Transaction is currently processing. Please retry later."
    else
      .replay 200 cached true

/-! ### Derived notions used by the claims -/

/-- Sum of the `amount` column over a list of ledger entries. -/
def entryAmountSum (l : List LedgerEntry) : Int :=
  l.foldl (fun s e => s + e.amount) 0

/-- `sum(ledger.amount where entry = side, tx = txId)`. -/
def ledgerSideSum (l : List LedgerEntry) (txId : String) (side : EntryType) : Int :=
  entryAmountSum (l.filter fun e => e.transaction_id == txId && e.entry_type == side)

/-- The store committed by a successful transfer: both wallet balances
updated, the new transaction row appended, and the DEBIT/CREDIT pair
appended to the ledger. -/
def successStore (db : Store) (newTxId : String) (now : Nat) (k : String)
    (fromW toW : Wallet) (q : Int) (ty : TransactionType) : Store :=
  let db2 := (db.updateWalletBalance fromW.id (fromW.balance - q)).updateWalletBalance
      toW.id (toW.balance + q)
  { db2 with
    transactions := db2.transactions ++ [⟨newTxId, k, fromW.id, toW.id, q, ty, "SUCCESS", now⟩],
    ledgerEntries := db2.ledgerEntries ++
      [⟨newTxId, fromW.id, .DEBIT, q, fromW.balance - q⟩,
       ⟨newTxId, toW.id, .CREDIT, q, toW.balance + q⟩] }

/-! ### Helper lemmas (shared between claims) -/

theorem updateWalletBalance_assets (db : Store) (i : String) (b : Int) :
    (db.updateWalletBalance i b).assets = db.assets := rfl

theorem updateWalletBalance_transactions (db : Store) (i : String) (b : Int) :
    (db.updateWalletBalance i b).transactions = db.transactions := rfl

theorem updateWalletBalance_ledger (db : Store) (i : String) (b : Int) :
    (db.updateWalletBalance i b).ledgerEntries = db.ledgerEntries := rfl

/-- Symbolic execution of `executeTransaction` on the success path: under a
fresh idempotency key, a resolvable asset, both wallets present, a valid
amount and a sufficient balance, the call commits `successStore` and
returns the type-dependent caller-facing balance. -/
theorem executeTransaction_success
    (db : Store) (newTxId : String) (now : Nat) (k fromU toU sym : String)
    (q : Int) (ty : TransactionType) (asset : Asset) (fromW toW : Wallet)
    (hq : 0 < q) (hqm : q ≤ MAX_AMOUNT)
    (ha : db.assets.find? (fun a => a.symbol == sym) = some asset)
    (hdup : db.transactions.find? (fun t => t.idempotency_key == k) = none)
    (hf : db.wallets.find? (fun w => w.user_id == fromU && w.asset_id == asset.id) = some fromW)
    (ht : db.wallets.find? (fun w => w.user_id == toU && w.asset_id == asset.id) = some toW)
    (h0 : ¬ fromW.balance < 0) (hb : ¬ fromW.balance < q) :
    executeTransaction db newTxId now k fromU toU sym (.num q) ty =
      .ok (⟨"SUCCESS", newTxId,
            if ty == .TOP_UP || ty == .BONUS then toW.balance + q else fromW.balance - q⟩,
           successStore db newTxId now k fromW toW q ty) := by
  have h1 : ((JsNum.num q).leZero || !(JsNum.num q).isFinite) = false := by
    simp [JsNum.leZero, JsNum.isFinite, hq.not_le]
  have h2 : (JsNum.num q).gtMax = false := by
    simp [JsNum.gtMax, hqm.not_lt]
  simp only [executeTransaction, h1, h2, Bool.false_eq_true, if_false, ha]
  simp only [withRetry, withRetryGo, runTransaction, txBody, JsNum.toRat,
    hdup, hf, ht, h0, if_false, hb, successStore]

/-- Symbolic execution of `executeTransaction` on the DB-duplicate path:
when a transaction row with the key already exists, the call returns
`{status: SUCCESS, txId: existing.id, balance: 0}` and the transaction body
performs no writes at all. -/
theorem executeTransaction_duplicate
    (db : Store) (newTxId : String) (now : Nat) (k fromU toU sym : String)
    (q : Int) (ty : TransactionType) (asset : Asset) (ex : Transaction)
    (hq : 0 < q) (hqm : q ≤ MAX_AMOUNT)
    (ha : db.assets.find? (fun a => a.symbol == sym) = some asset)
    (hdup : db.transactions.find? (fun t => t.idempotency_key == k) = some ex) :
    executeTransaction db newTxId now k fromU toU sym (.num q) ty =
      .ok (⟨"SUCCESS", ex.id, 0⟩, db)
    ∧ (txBody db newTxId now k fromU toU asset.id q ty).2 = db := by
  have h1 : ((JsNum.num q).leZero || !(JsNum.num q).isFinite) = false := by
    simp [JsNum.leZero, JsNum.isFinite, hq.not_le]
  have h2 : (JsNum.num q).gtMax = false := by
    simp [JsNum.gtMax, hqm.not_lt]
  constructor
  · simp only [executeTransaction, h1, h2, Bool.false_eq_true, if_false, ha]
    simp only [withRetry, withRetryGo, runTransaction, txBody, JsNum.toRat, hdup]
  · simp only [txBody, hdup]

/-- Strengthening a filter that already returns nothing still returns
nothing. -/
theorem filter_and_eq_nil {α : Type} (p r : α → Bool) (l : List α)
    (h : l.filter p = []) : (l.filter fun x => p x && r x) = [] := by
  rw [List.filter_eq_nil_iff] at h ⊢
  intro a ha
  simp [h a ha]

/-! ### Claims -/

/-- C1: every successful `executeTransaction` appends exactly one
transaction row and exactly two ledger entries referencing the new
transaction id — a DEBIT on the from-wallet with `balance_after = newFrom`
and a CREDIT on the to-wallet with `balance_after = newTo`, both carrying
the transaction's amount — so the CREDIT sum and the DEBIT sum over that
transaction both equal the amount. -/
theorem executeTransfer_writes_double_entry_pair
    (db : Store) (newTxId : String) (now : Nat) (k fromU toU sym : String)
    (q : Int) (ty : TransactionType) (asset : Asset) (fromW toW : Wallet)
    (hq : 0 < q) (hqm : q ≤ MAX_AMOUNT)
    (ha : db.assets.find? (fun a => a.symbol == sym) = some asset)
    (hdup : db.transactions.find? (fun t => t.idempotency_key == k) = none)
    (hf : db.wallets.find? (fun w => w.user_id == fromU && w.asset_id == asset.id) = some fromW)
    (ht : db.wallets.find? (fun w => w.user_id == toU && w.asset_id == asset.id) = some toW)
    (h0 : ¬ fromW.balance < 0) (hb : ¬ fromW.balance < q)
    (hfresh : db.ledgerEntries.filter (fun e => e.transaction_id == newTxId) = []) :
    ∃ res db',
      executeTransaction db newTxId now k fromU toU sym (.num q) ty = .ok (res, db') ∧
      res.txId = newTxId ∧
      db'.transactions = db.transactions ++
        [⟨newTxId, k, fromW.id, toW.id, q, ty, "SUCCESS", now⟩] ∧
      db'.ledgerEntries = db.ledgerEntries ++
        [⟨newTxId, fromW.id, .DEBIT, q, fromW.balance - q⟩,
         ⟨newTxId, toW.id, .CREDIT, q, toW.balance + q⟩] ∧
      ledgerSideSum db'.ledgerEntries newTxId .CREDIT = q ∧
      ledgerSideSum db'.ledgerEntries newTxId .DEBIT = q := by
  refine ⟨_, _, executeTransaction_success db newTxId now k fromU toU sym q ty asset fromW toW
    hq hqm ha hdup hf ht h0 hb, rfl, rfl, rfl, ?_, ?_⟩
  · have hl : (successStore db newTxId now k fromW toW q ty).ledgerEntries =
        db.ledgerEntries ++
          [⟨newTxId, fromW.id, .DEBIT, q, fromW.balance - q⟩,
           ⟨newTxId, toW.id, .CREDIT, q, toW.balance + q⟩] := rfl
    rw [ledgerSideSum, hl, List.filter_append, filter_and_eq_nil _ _ _ hfresh]
    simp [entryAmountSum, List.filter,
      show (EntryType.DEBIT == EntryType.CREDIT) = false from rfl,
      show (EntryType.CREDIT == EntryType.CREDIT) = true from rfl]
  · have hl : (successStore db newTxId now k fromW toW q ty).ledgerEntries =
        db.ledgerEntries ++
          [⟨newTxId, fromW.id, .DEBIT, q, fromW.balance - q⟩,
           ⟨newTxId, toW.id, .CREDIT, q, toW.balance + q⟩] := rfl
    rw [ledgerSideSum, hl, List.filter_append, filter_and_eq_nil _ _ _ hfresh]
    simp [entryAmountSum, List.filter,
      show (EntryType.DEBIT == EntryType.DEBIT) = true from rfl,
      show (EntryType.CREDIT == EntryType.DEBIT) = false from rfl]

/-- Membership in an updated wallet table: a wallet row either has the
updated id and carries the new balance, or is an untouched original row. -/
theorem mem_updateWalletBalance (db : Store) (i : String) (b : Int) (w : Wallet)
    (hw : w ∈ (db.updateWalletBalance i b).wallets) :
    (w.id = i ∧ w.balance = b) ∨ (w.id ≠ i ∧ w ∈ db.wallets) := by
  rw [Store.updateWalletBalance] at hw
  obtain ⟨w0, hw0, rfl⟩ := List.mem_map.1 hw
  by_cases h : w0.id = i
  · left
    simp [h]
  · right
    simp [h, hw0]

/-- C6: on success the engine computes `newFrom = fromWallet.balance − amount`
and `newTo = toWallet.balance + amount` (both visible in the committed wallet
table), and the returned `balance` is the caller-facing one: `newTo` for
TOP_UP and BONUS, `newFrom` for SPEND. -/
theorem executeTransfer_caller_facing_balance
    (db : Store) (newTxId : String) (now : Nat) (k fromU toU sym : String)
    (q : Int) (ty : TransactionType) (asset : Asset) (fromW toW : Wallet)
    (res : TxResult) (db' : Store)
    (hq : 0 < q) (hqm : q ≤ MAX_AMOUNT)
    (ha : db.assets.find? (fun a => a.symbol == sym) = some asset)
    (hdup : db.transactions.find? (fun t => t.idempotency_key == k) = none)
    (hf : db.wallets.find? (fun w => w.user_id == fromU && w.asset_id == asset.id) = some fromW)
    (ht : db.wallets.find? (fun w => w.user_id == toU && w.asset_id == asset.id) = some toW)
    (h0 : ¬ fromW.balance < 0) (hb : ¬ fromW.balance < q)
    (hexec : executeTransaction db newTxId now k fromU toU sym (.num q) ty = .ok (res, db')) :
    res.balance = (match ty with
      | .TOP_UP => toW.balance + q
      | .BONUS => toW.balance + q
      | .SPEND => fromW.balance - q) ∧
    (∀ w ∈ db'.wallets, w.id = toW.id → w.balance = toW.balance + q) ∧
    (∀ w ∈ db'.wallets, w.id = fromW.id → fromW.id ≠ toW.id →
      w.balance = fromW.balance - q) := by
  rw [executeTransaction_success db newTxId now k fromU toU sym q ty asset fromW toW
    hq hqm ha hdup hf ht h0 hb] at hexec
  simp only [Except.ok.injEq, Prod.mk.injEq] at hexec
  obtain ⟨hres, hdb⟩ := hexec
  subst hres
  subst hdb
  refine ⟨?_, ?_, ?_⟩
  · cases ty <;> rfl
  · intro w hw hid
    rcases mem_updateWalletBalance _ _ _ _ hw with ⟨_, hbal⟩ | ⟨hne, _⟩
    · exact hbal
    · exact absurd hid hne
  · intro w hw hid hne
    rcases mem_updateWalletBalance _ _ _ _ hw with ⟨heq, _⟩ | ⟨_, hw1⟩
    · exact absurd (hid.symm.trans heq) hne
    · rcases mem_updateWalletBalance _ _ _ _ hw1 with ⟨_, hbal⟩ | ⟨hne2, _⟩
      · exact hbal
      · exact absurd hid hne2

/-- C3: when the from-wallet holds a (non-negative) balance strictly below
the requested amount, the transfer fails with the insufficient-funds error
and the transaction body leaves the store untouched — no wallet, transaction
or ledger row is written. -/
theorem insufficient_funds_mutates_nothing
    (db : Store) (newTxId : String) (now : Nat) (k fromU toU sym : String)
    (q : Int) (ty : TransactionType) (asset : Asset) (fromW toW : Wallet)
    (hq : 0 < q) (hqm : q ≤ MAX_AMOUNT)
    (ha : db.assets.find? (fun a => a.symbol == sym) = some asset)
    (hdup : db.transactions.find? (fun t => t.idempotency_key == k) = none)
    (hf : db.wallets.find? (fun w => w.user_id == fromU && w.asset_id == asset.id) = some fromW)
    (ht : db.wallets.find? (fun w => w.user_id == toU && w.asset_id == asset.id) = some toW)
    (h0 : ¬ fromW.balance < 0) (hlt : fromW.balance < q) :
    executeTransaction db newTxId now k fromU toU sym (.num q) ty =
      .error (.genericError "Insufficient funds.")
    ∧ (txBody db newTxId now k fromU toU asset.id q ty).2 = db := by
  have h1 : ((JsNum.num q).leZero || !(JsNum.num q).isFinite) = false := by
    simp [JsNum.leZero, JsNum.isFinite, hq.not_le]
  have h2 : (JsNum.num q).gtMax = false := by
    simp [JsNum.gtMax, hqm.not_lt]
  constructor
  · simp only [executeTransaction, h1, h2, Bool.false_eq_true, if_false, ha]
    simp only [withRetry, withRetryGo, runTransaction, txBody, JsNum.toRat,
      hdup, hf, ht, h0, if_false, hlt, if_true]
    rfl
  · simp only [txBody, hdup, hf, ht, h0, if_false, hlt, if_true]

/-- C4 (amended): when a transaction row with the idempotency key already
exists, the call is not an error: it returns `status SUCCESS` with the
stored row's transaction id and the placeholder balance `0` (the source's
`balance: '0'` fallback, not the prior outcome's balance), and performs no
further writes. -/
theorem duplicate_key_returns_prior_txid_without_writes
    (db : Store) (newTxId : String) (now : Nat) (k fromU toU sym : String)
    (q : Int) (ty : TransactionType) (asset : Asset) (ex : Transaction)
    (hq : 0 < q) (hqm : q ≤ MAX_AMOUNT)
    (ha : db.assets.find? (fun a => a.symbol == sym) = some asset)
    (hdup : db.transactions.find? (fun t => t.idempotency_key == k) = some ex) :
    executeTransaction db newTxId now k fromU toU sym (.num q) ty =
      .ok (⟨"SUCCESS", ex.id, 0⟩, db)
    ∧ (txBody db newTxId now k fromU toU asset.id q ty).2 = db :=
  executeTransaction_duplicate db newTxId now k fromU toU sym q ty asset ex hq hqm ha hdup

/-- The seeded demonstration store: the GOLD asset, the treasury wallet and
one user wallet. -/
def demoStore : Store :=
  { assets := [⟨"a-gold", "GOLD"⟩],
    wallets := [⟨"w-trs", "u-trs", "a-gold", 1000000⟩,
                ⟨"w-ali", "u-ali", "a-gold", 500⟩],
    transactions := [],
    ledgerEntries := [] }

/-- `demoStore` after a committed TOP_UP of 100 under key k1. -/
def demoStoreAfterTopUp : Store :=
  { assets := [⟨"a-gold", "GOLD"⟩],
    wallets := [⟨"w-trs", "u-trs", "a-gold", 999900⟩,
                ⟨"w-ali", "u-ali", "a-gold", 600⟩],
    transactions := [⟨"tx1", "k1", "w-trs", "w-ali", 100, .TOP_UP, "SUCCESS", 10⟩],
    ledgerEntries := [⟨"tx1", "w-trs", .DEBIT, 100, 999900⟩,
                      ⟨"tx1", "w-ali", .CREDIT, 100, 600⟩] }

/-- C4 counterexample: the replay does not return the prior outcome's result
fields.  A TOP_UP of 100 commits with caller-facing balance 600, but the
DB-level duplicate replay of the same key returns balance 0. -/
theorem duplicate_key_replay_balance_differs :
    executeTransaction demoStore "tx1" 10 "k1" "u-trs" "u-ali" "GOLD" (.num 100) .TOP_UP =
      .ok (⟨"SUCCESS", "tx1", 600⟩, demoStoreAfterTopUp)
    ∧ executeTransaction demoStoreAfterTopUp "tx2" 11 "k1" "u-trs" "u-ali" "GOLD"
        (.num 100) .TOP_UP = .ok (⟨"SUCCESS", "tx1", 0⟩, demoStoreAfterTopUp)
    ∧ (600 : Int) ≠ 0 := by
  refine ⟨by decide, by decide, by decide⟩

/-- C2: replaying `ExecuteTransfer` with the key of a committed transfer —
with any (valid) arguments — returns the same transaction id, leaves the
store unchanged, and the store holds exactly one transaction row for the key
and exactly two ledger rows for that transaction id. -/
theorem idempotent_replay_one_tx_two_ledger_rows
    (db : Store) (id1 id2 : String) (now1 now2 : Nat) (k fromU toU sym : String)
    (q : Int) (ty : TransactionType) (asset : Asset) (fromW toW : Wallet)
    (fromU2 toU2 sym2 : String) (q2 : Int) (ty2 : TransactionType) (asset2 : Asset)
    (hq : 0 < q) (hqm : q ≤ MAX_AMOUNT)
    (ha : db.assets.find? (fun a => a.symbol == sym) = some asset)
    (hdup : db.transactions.find? (fun t => t.idempotency_key == k) = none)
    (hf : db.wallets.find? (fun w => w.user_id == fromU && w.asset_id == asset.id) = some fromW)
    (ht : db.wallets.find? (fun w => w.user_id == toU && w.asset_id == asset.id) = some toW)
    (h0 : ¬ fromW.balance < 0) (hb : ¬ fromW.balance < q)
    (hfresh : db.ledgerEntries.filter (fun e => e.transaction_id == id1) = [])
    (hq2 : 0 < q2) (hqm2 : q2 ≤ MAX_AMOUNT)
    (ha2 : db.assets.find? (fun a => a.symbol == sym2) = some asset2) :
    ∃ r1 db1 r2,
      executeTransaction db id1 now1 k fromU toU sym (.num q) ty = .ok (r1, db1) ∧
      executeTransaction db1 id2 now2 k fromU2 toU2 sym2 (.num q2) ty2 = .ok (r2, db1) ∧
      r2.txId = r1.txId ∧
      (db1.transactions.filter (fun t => t.idempotency_key == k)).length = 1 ∧
      (db1.ledgerEntries.filter (fun e => e.transaction_id == r1.txId)).length = 2 := by
  have h1 := executeTransaction_success db id1 now1 k fromU toU sym q ty asset fromW toW
    hq hqm ha hdup hf ht h0 hb
  refine ⟨_, successStore db id1 now1 k fromW toW q ty, ⟨"SUCCESS", id1, 0⟩, h1, ?_, ?_, ?_, ?_⟩
  · have hassets : (successStore db id1 now1 k fromW toW q ty).assets = db.assets := rfl
    have htx : (successStore db id1 now1 k fromW toW q ty).transactions =
        db.transactions ++ [⟨id1, k, fromW.id, toW.id, q, ty, "SUCCESS", now1⟩] := rfl
    have hdup2 : (successStore db id1 now1 k fromW toW q ty).transactions.find?
        (fun t => t.idempotency_key == k) =
        some ⟨id1, k, fromW.id, toW.id, q, ty, "SUCCESS", now1⟩ := by
      rw [htx, List.find?_append, hdup]
      simp
    exact (executeTransaction_duplicate (successStore db id1 now1 k fromW toW q ty)
      id2 now2 k fromU2 toU2 sym2 q2 ty2 asset2 _ hq2 hqm2 (hassets ▸ ha2) hdup2).1
  · rfl
  · have hnil : db.transactions.filter (fun t => t.idempotency_key == k) = [] :=
      List.filter_eq_nil_iff.2 (List.find?_eq_none.1 hdup)
    have htx : (successStore db id1 now1 k fromW toW q ty).transactions =
        db.transactions ++ [⟨id1, k, fromW.id, toW.id, q, ty, "SUCCESS", now1⟩] := rfl
    rw [htx, List.filter_append, hnil]
    simp
  · have hl : (successStore db id1 now1 k fromW toW q ty).ledgerEntries =
        db.ledgerEntries ++
          [⟨id1, fromW.id, .DEBIT, q, fromW.balance - q⟩,
           ⟨id1, toW.id, .CREDIT, q, toW.balance + q⟩] := rfl
    rw [hl, List.filter_append, hfresh]
    simp

/-- Lines 45-46 of `WalletController.processTransaction`: route the caller's
(userId, type) pair to (fromUserId, toUserId) with the treasury as
counterparty — TOP_UP/BONUS debit the treasury, SPEND credits it.  No
equality check between the two endpoints is performed here or anywhere
else. -/
def routeEndpoints (treasuryId userId : String) (ty : TransactionType) : String × String :=
  if ty == .TOP_UP || ty == .BONUS then (treasuryId, userId) else (userId, treasuryId)

/-- `demoStore` after the self-transfer SPEND of 100 submitted with
`userId = treasury`: the treasury wallet nets +100, and the committed
transaction has `from_wallet_id = to_wallet_id`. -/
def selfTransferStore : Store :=
  { assets := [⟨"a-gold", "GOLD"⟩],
    wallets := [⟨"w-trs", "u-trs", "a-gold", 1000100⟩,
                ⟨"w-ali", "u-ali", "a-gold", 500⟩],
    transactions := [⟨"tx1", "kx", "w-trs", "w-trs", 100, .SPEND, "SUCCESS", 10⟩],
    ledgerEntries := [⟨"tx1", "w-trs", .DEBIT, 100, 999900⟩,
                      ⟨"tx1", "w-trs", .CREDIT, 100, 1000100⟩] }

/-- Claim C5 evidence (code bug): a request whose resolved from-user equals
its to-user is NOT rejected — a SPEND submitted with `userId` equal to the
treasury id routes to the pair (treasury, treasury), passes every
validation, runs the full store transaction, and commits a transaction row
with `from_wallet_id = to_wallet_id` together with two ledger entries on the
same wallet, netting the wallet +amount (the second balance update
overwrites the first). -/
theorem equal_endpoints_not_rejected :
    routeEndpoints "u-trs" "u-trs" .SPEND = ("u-trs", "u-trs")
    ∧ executeTransaction demoStore "tx1" 10 "kx" "u-trs" "u-trs" "GOLD"
        (.num 100) .SPEND = .ok (⟨"SUCCESS", "tx1", 999900⟩, selfTransferStore)
    ∧ selfTransferStore ≠ demoStore
    ∧ (selfTransferStore.transactions.filter
        (fun t => t.from_wallet_id == t.to_wallet_id)).length = 1
    ∧ (selfTransferStore.walletById "w-trs").map Wallet.balance = some 1000100 := by
  refine ⟨rfl, by decide, by decide, by decide, by decide⟩

/-- Claim C7: the lock pair is the sorted pair of the two user ids —
computing it is invariant under swapping the endpoints, and its first
component never exceeds its second, so two transfers on the same pair of
users attempt locks in the same order. -/
theorem lock_order_sorted_and_symmetric (a b : String) :
    lockPair a b = lockPair b a ∧ (lockPair a b).1 ≤ (lockPair a b).2 := by
  constructor
  · unfold lockPair
    by_cases h : a ≤ b <;> by_cases h2 : b ≤ a <;> simp [h, h2]
    · exact ⟨le_antisymm h h2, le_antisymm h2 h⟩
    · exact absurd ((le_total a b).resolve_left h) h2
  · rw [lockPair]
    split
    · next h => exact h
    · next h => exact le_of_not_le h

/-- The retry loop performs at most `fuel` calls. -/
theorem withRetryGo_calls_le {α : Type} (fn : Nat → Except WError α) :
    ∀ (f a : Nat), (withRetryGo fn a f).calls ≤ f := by
  intro f
  induction f with
  | zero => intro a; simp [withRetryGo]
  | succ f ih =>
    intro a
    rw [withRetryGo]
    cases hfn : fn a with
    | ok v => simp
    | error e =>
      by_cases hr : (isRetryable e && f != 0) = true
      · simp only [hr, if_true]
        exact Nat.succ_le_succ (ih (a + 1))
      · simp only [hr, if_false]
        exact Nat.succ_le_succ (Nat.zero_le f)

/-- With positive fuel the retry loop calls `fn` at least once. -/
theorem withRetryGo_calls_pos {α : Type} (fn : Nat → Except WError α) (a f : Nat) :
    1 ≤ (withRetryGo fn a (f + 1)).calls := by
  rw [withRetryGo]
  cases hfn : fn a with
  | ok v => simp
  | error e =>
    by_cases hr : (isRetryable e && f != 0) = true
    · simp [hr]
    · simp [hr]

/-- The backoff delays of a retry run are exactly `2 ^ attempt * 100` for
each non-final call, in order. -/
theorem withRetryGo_delays {α : Type} (fn : Nat → Except WError α) :
    ∀ (f a : Nat), (withRetryGo fn a f).delays =
      (List.range ((withRetryGo fn a f).calls - 1)).map (fun i => 2 ^ (i + a) * 100) := by
  intro f
  induction f with
  | zero => intro a; simp [withRetryGo]
  | succ f ih =>
    intro a
    rw [withRetryGo]
    cases hfn : fn a with
    | ok v => simp
    | error e =>
      by_cases hr : (isRetryable e && f != 0) = true
      · simp only [hr, if_true]
        have hf : f ≠ 0 := by
          intro h0
          subst h0
          simp at hr
        obtain ⟨f2, rfl⟩ : ∃ f2, f = f2 + 1 :=
          ⟨f - 1, (Nat.succ_pred_eq_of_pos (Nat.pos_of_ne_zero hf)).symm⟩
        obtain ⟨c, hc⟩ : ∃ c, (withRetryGo fn (a + 1) (f2 + 1)).calls = c + 1 :=
          ⟨(withRetryGo fn (a + 1) (f2 + 1)).calls - 1,
           (Nat.succ_pred_eq_of_pos (withRetryGo_calls_pos fn (a + 1) f2)).symm⟩
        rw [ih (a + 1), hc]
        simp only [Nat.add_sub_cancel, List.range_succ_eq_map, List.map_cons, List.map_map]
        congr 1
        · rw [Nat.zero_add]
        · apply List.map_congr_left
          intro i hi
          simp only [Function.comp, Nat.succ_eq_add_one]
          have hx : i + (a + 1) = i + 1 + a := by omega
          rw [hx]
      · simp only [hr, if_false]
        simp

/-- Claim C8: the transfer transaction is retried only on a retryable
(deadlock-detected 40P01 / lock-not-available 55P03) error, for at most 3
calls in total, sleeping `2 ^ attempt * 100` ms between attempts (200 ms
after the first failure, 400 ms after the second); any non-retryable error
aborts immediately with a single call, and after the third call the outcome
is returned as is, retryable or not. -/
theorem withRetry_bounded_backoff_policy {α : Type} (fn : Nat → Except WError α) :
    (withRetry fn 3).calls ≤ 3
    ∧ (withRetry fn 3).delays =
        (List.range ((withRetry fn 3).calls - 1)).map (fun i => 2 ^ (i + 1) * 100)
    ∧ (∀ e, fn 1 = .error e → isRetryable e = false →
        withRetry fn 3 = ⟨.error e, 1, []⟩)
    ∧ (∀ e e2, fn 1 = .error e → isRetryable e = true →
        fn 2 = .error e2 → isRetryable e2 = false →
        withRetry fn 3 = ⟨.error e2, 2, [200]⟩)
    ∧ (∀ e e2, fn 1 = .error e → isRetryable e = true →
        fn 2 = .error e2 → isRetryable e2 = true →
        (withRetry fn 3).calls = 3 ∧ (withRetry fn 3).delays = [200, 400]
        ∧ (withRetry fn 3).result = fn 3) := by
  refine ⟨withRetryGo_calls_le fn 3 1, withRetryGo_delays fn 3 1, ?_, ?_, ?_⟩
  · intro e h1 hr
    simp [withRetry, withRetryGo, h1, hr]
  · intro e e2 h1 hr h2 hr2
    simp [withRetry, withRetryGo, h1, hr, h2, hr2]
  · intro e e2 h1 hr h2 hr2
    cases h3 : fn 3 with
    | ok v =>
      refine ⟨?_, ?_, ?_⟩ <;> simp [withRetry, withRetryGo, h1, hr, h2, hr2, h3]
    | error e3 =>
      refine ⟨?_, ?_, ?_⟩ <;> simp [withRetry, withRetryGo, h1, hr, h2, hr2, h3]

/-- A store for the history pagination scenario: user u1 has a GOLD and a
DIAMOND wallet; the newest transaction touching u1 is in DIAMOND
(`created_at` 2), the older one in GOLD (`created_at` 1). -/
def historyStore : Store :=
  { assets := [⟨"a-gold", "GOLD"⟩, ⟨"a-dia", "DIAMOND"⟩],
    wallets := [⟨"w1g", "u1", "a-gold", 100⟩, ⟨"w1d", "u1", "a-dia", 100⟩,
                ⟨"w2g", "u2", "a-gold", 100⟩, ⟨"w2d", "u2", "a-dia", 100⟩],
    transactions := [⟨"txA", "kA", "w1d", "w2d", 10, .SPEND, "SUCCESS", 2⟩,
                     ⟨"txB", "kB", "w1g", "w2g", 10, .SPEND, "SUCCESS", 1⟩],
    ledgerEntries := [] }

/-- Claim C9: the history endpoint applies the asset filter after the page
window.  With limit 1 and a GOLD filter on `historyStore`, the window holds
only the newest (DIAMOND) transaction, so the returned page is empty —
fewer rows than the limit — even though a GOLD transaction for the user
exists beyond the window; the reported pagination still counts the
post-filter rows (`returned = 0`) and reports
`hasMore = offset + returned < total = true`. -/
theorem history_asset_filter_applied_after_window :
    getTransactionHistory historyStore "u1" none (some "GOLD") none none 1 0 =
      .ok ⟨[], 2, 1, 0, 0, true⟩
    ∧ (historyStore.transactions.filter (fun t =>
        historyWhere historyStore "u1" none none none t
          && txTouchesAsset historyStore "GOLD" t)).length = 1
    ∧ (0 : Nat) < 1 := by
  refine ⟨by decide, by decide, by decide⟩

/-- Claim C10: a cached terminal FAILED outcome replays as HTTP 200 with
the cached body and `_cached: true`; a non-200 replay happens only for a
cached PROCESSING value, and then it is exactly 409 CONFLICT. -/
theorem cached_failed_outcome_replays_as_200 :
    (∀ c : Cached, c.status = .FAILED →
      handleIdempotencyCache (some c) = .replay 200 c true)
    ∧ (∀ c : Cached, (handleIdempotencyCache (some c)).code ≠ some 200 →
        c.status = .PROCESSING ∧
        handleIdempotencyCache (some c) =
          .conflict 409 "Transaction is currently processing. Please retry later.") := by
  have e1 : (CacheStatus.FAILED == CacheStatus.PROCESSING) = false := rfl
  have e2 : (CacheStatus.SUCCESS == CacheStatus.PROCESSING) = false := rfl
  have e3 : (CacheStatus.PROCESSING == CacheStatus.PROCESSING) = true := rfl
  constructor
  · intro c hc
    simp [handleIdempotencyCache, hc, e1]
  · intro c hc
    cases hstat : c.status
    case PROCESSING =>
      exact ⟨rfl, by simp [handleIdempotencyCache, hstat, e3]⟩
    case SUCCESS =>
      exact absurd (by simp [handleIdempotencyCache, hstat, e2, ReplayDecision.code]) hc
    case FAILED =>
      exact absurd (by simp [handleIdempotencyCache, hstat, e1, ReplayDecision.code]) hc

/-! ### Concrete witnesses -/

/-- Witness for the double-entry claim at the demonstration store: a TOP_UP
of 100 GOLD from the treasury to the user. -/
theorem executeTransfer_writes_double_entry_pair_witness :
    ∃ res db',
      executeTransaction demoStore "tx1" 10 "k1" "u-trs" "u-ali" "GOLD" (.num 100) .TOP_UP =
        .ok (res, db') ∧
      res.txId = "tx1" ∧
      db'.transactions = demoStore.transactions ++
        [⟨"tx1", "k1", "w-trs", "w-ali", 100, .TOP_UP, "SUCCESS", 10⟩] ∧
      db'.ledgerEntries = demoStore.ledgerEntries ++
        [⟨"tx1", "w-trs", .DEBIT, 100, 1000000 - 100⟩,
         ⟨"tx1", "w-ali", .CREDIT, 100, 500 + 100⟩] ∧
      ledgerSideSum db'.ledgerEntries "tx1" .CREDIT = 100 ∧
      ledgerSideSum db'.ledgerEntries "tx1" .DEBIT = 100 :=
  executeTransfer_writes_double_entry_pair demoStore "tx1" 10 "k1" "u-trs" "u-ali" "GOLD"
    100 .TOP_UP ⟨"a-gold", "GOLD"⟩ ⟨"w-trs", "u-trs", "a-gold", 1000000⟩
    ⟨"w-ali", "u-ali", "a-gold", 500⟩ (by decide) (by decide) (by decide) (by decide)
    (by decide) (by decide) (by decide) (by decide) (by decide)

/-- Witness for the idempotent-replay claim: commit a TOP_UP under key k1,
then replay key k1 with different arguments (a SPEND of 50). -/
theorem idempotent_replay_one_tx_two_ledger_rows_witness :
    ∃ r1 db1 r2,
      executeTransaction demoStore "tx1" 10 "k1" "u-trs" "u-ali" "GOLD" (.num 100) .TOP_UP =
        .ok (r1, db1) ∧
      executeTransaction db1 "tx2" 11 "k1" "u-ali" "u-trs" "GOLD" (.num 50) .SPEND =
        .ok (r2, db1) ∧
      r2.txId = r1.txId ∧
      (db1.transactions.filter (fun t => t.idempotency_key == "k1")).length = 1 ∧
      (db1.ledgerEntries.filter (fun e => e.transaction_id == r1.txId)).length = 2 :=
  idempotent_replay_one_tx_two_ledger_rows demoStore "tx1" "tx2" 10 11 "k1" "u-trs" "u-ali"
    "GOLD" 100 .TOP_UP ⟨"a-gold", "GOLD"⟩ ⟨"w-trs", "u-trs", "a-gold", 1000000⟩
    ⟨"w-ali", "u-ali", "a-gold", 500⟩ "u-ali" "u-trs" "GOLD" 50 .SPEND ⟨"a-gold", "GOLD"⟩
    (by decide) (by decide) (by decide) (by decide) (by decide) (by decide) (by decide)
    (by decide) (by decide) (by decide) (by decide) (by decide)

/-- Witness for the insufficient-funds claim: the user (balance 500) tries
to SPEND 900. -/
theorem insufficient_funds_mutates_nothing_witness :
    executeTransaction demoStore "tx9" 12 "k9" "u-ali" "u-trs" "GOLD" (.num 900) .SPEND =
      .error (.genericError "Insufficient funds.")
    ∧ (txBody demoStore "tx9" 12 "k9" "u-ali" "u-trs" "a-gold" 900 .SPEND).2 = demoStore :=
  insufficient_funds_mutates_nothing demoStore "tx9" 12 "k9" "u-ali" "u-trs" "GOLD" 900
    .SPEND ⟨"a-gold", "GOLD"⟩ ⟨"w-ali", "u-ali", "a-gold", 500⟩
    ⟨"w-trs", "u-trs", "a-gold", 1000000⟩ (by decide) (by decide) (by decide) (by decide)
    (by decide) (by decide) (by decide) (by decide)

/-- Witness for the amended duplicate-key claim: replaying key k1 against
the store that already committed tx1 returns tx1's id with balance 0 and
writes nothing. -/
theorem duplicate_key_returns_prior_txid_without_writes_witness :
    executeTransaction demoStoreAfterTopUp "tx2" 11 "k1" "u-trs" "u-ali" "GOLD"
      (.num 100) .TOP_UP = .ok (⟨"SUCCESS", "tx1", 0⟩, demoStoreAfterTopUp)
    ∧ (txBody demoStoreAfterTopUp "tx2" 11 "k1" "u-trs" "u-ali" "a-gold" 100 .TOP_UP).2 =
        demoStoreAfterTopUp :=
  duplicate_key_returns_prior_txid_without_writes demoStoreAfterTopUp "tx2" 11 "k1"
    "u-trs" "u-ali" "GOLD" 100 .TOP_UP ⟨"a-gold", "GOLD"⟩
    ⟨"tx1", "k1", "w-trs", "w-ali", 100, .TOP_UP, "SUCCESS", 10⟩
    (by decide) (by decide) (by decide) (by decide)

/-- Witness for the caller-facing-balance claim: the user SPENDs 50, so the
returned balance is the debited wallet's new balance 450, while the
treasury wallet ends at 1000050. -/
theorem executeTransfer_caller_facing_balance_witness :
    ((⟨"SUCCESS", "tx3", 450⟩ : TxResult).balance = 500 - 50)
    ∧ (∀ w ∈ (successStore demoStore "tx3" 13 "k3" ⟨"w-ali", "u-ali", "a-gold", 500⟩
          ⟨"w-trs", "u-trs", "a-gold", 1000000⟩ 50 .SPEND).wallets,
        w.id = "w-trs" → w.balance = 1000000 + 50)
    ∧ (∀ w ∈ (successStore demoStore "tx3" 13 "k3" ⟨"w-ali", "u-ali", "a-gold", 500⟩
          ⟨"w-trs", "u-trs", "a-gold", 1000000⟩ 50 .SPEND).wallets,
        w.id = "w-ali" → ("w-ali" : String) ≠ "w-trs" → w.balance = 500 - 50) :=
  executeTransfer_caller_facing_balance demoStore "tx3" 13 "k3" "u-ali" "u-trs" "GOLD"
    50 .SPEND ⟨"a-gold", "GOLD"⟩ ⟨"w-ali", "u-ali", "a-gold", 500⟩
    ⟨"w-trs", "u-trs", "a-gold", 1000000⟩ ⟨"SUCCESS", "tx3", 450⟩
    (successStore demoStore "tx3" 13 "k3" ⟨"w-ali", "u-ali", "a-gold", 500⟩
      ⟨"w-trs", "u-trs", "a-gold", 1000000⟩ 50 .SPEND)
    (by decide) (by decide) (by decide) (by decide) (by decide) (by decide) (by decide)
    (by decide) (by decide)

/-- Witness for the lock-order claim at two concrete user ids. -/
theorem lock_order_sorted_and_symmetric_witness :
    lockPair "u-trs" "u-ali" = lockPair "u-ali" "u-trs" ∧
    (lockPair "u-trs" "u-ali").1 ≤ (lockPair "u-trs" "u-ali").2 :=
  lock_order_sorted_and_symmetric "u-trs" "u-ali"

/-- An attempt function that hits a retryable deadlock on the first call
and a non-retryable error on the second. -/
def retryThenFailFn : Nat → Except WError Nat := fun n =>
  if n = 1 then .error (.pgError "40P01") else .error (.genericError "boom")

/-- Witness for the retry-policy claim: one retryable failure, then a
non-retryable one — two calls, a single 200 ms backoff, immediate abort. -/
theorem withRetry_bounded_backoff_policy_witness :
    withRetry retryThenFailFn 3 = ⟨.error (.genericError "boom"), 2, [200]⟩ :=
  (withRetry_bounded_backoff_policy retryThenFailFn).2.2.2.1 (.pgError "40P01")
    (.genericError "boom") (by decide) (by decide) (by decide) (by decide)

/-- A cached FAILED outcome, as stored by `saveIdempotencyResult` after a
validation failure. -/
def failedCached : Cached := ⟨.FAILED, none, none, some "Validation failed"⟩

/-- Witness for the cached-FAILED-replay claim. -/
theorem cached_failed_outcome_replays_as_200_witness :
    handleIdempotencyCache (some failedCached) = .replay 200 failedCached true :=
  cached_failed_outcome_replays_as_200.1 failedCached rfl

end WalletSpec
